import Mathlib

/-!
Shallow embedding of the `verbose` repository: a minimal Flask web server
(`src/main.py`) that renders two HTML templates, serves one static
JavaScript file, and runs an HTTPS listener on all interfaces.

The embedding models the observable request/response behaviour of the
route table registered in `src/main.py`, together with the startup
(`app.run`) configuration.  File contents are supplied through an
environment (`Env`) mapping path strings to optional byte lists, so
theorems quantify over the on-disk state.
-/

namespace Verbose

/-- Bytes of an on-disk file, modelled as a list of byte values. -/
abbrev Bytes := List Nat

/-- HTTP request methods relevant to the route table. -/
inductive Method where
  | GET
  | HEAD
  | OPTIONS
  | POST
  | PUT
  | DELETE
  | PATCH
  deriving DecidableEq, Repr

/-- An incoming HTTP request: method, URL path, query string and headers.
Only the method and path influence dispatch in `src/main.py`. -/
structure Request where
  method : Method
  path : String
  query : String
  headers : List (String × String)
  deriving DecidableEq, Repr

/-- An HTTP response: status code, content type and body bytes. -/
structure Response where
  status : Nat
  contentType : String
  body : Bytes
  deriving DecidableEq, Repr

/-- The external environment: `read` maps an on-disk path to the file's
bytes (`none` when the file is absent), and `validPem` tells whether the
TLS library accepts a given file as well-formed PEM material. -/
structure Env where
  read : String → Option Bytes
  validPem : Bytes → Bool

/-- `os.path.join` on two components, as used in `src/main.py`. -/
def joinPath (a b : String) : String := a ++ "/" ++ b

/-- `cert_path = os.path.join(BASE_DIR, "certificates", "cert.pem")`
(src/main.py line 8), with `BASE_DIR` the directory of the source file,
passed here as `base`. -/
def cert_path (base : String) : String :=
  joinPath (joinPath base "certificates") "cert.pem"

/-- `key_path = os.path.join(BASE_DIR, "certificates", "key.pem")`
(src/main.py line 9). -/
def key_path (base : String) : String :=
  joinPath (joinPath base "certificates") "key.pem"

/-- Flask's template folder: the `templates` subdirectory of the
application's directory. -/
def templates_dir (base : String) : String := joinPath base "templates"

/-- Body of the framework's default 404 page (fixed, non-empty). -/
def notFoundBody : Bytes := [52, 48, 52]

/-- Body of the framework's default 405 page (fixed, non-empty). -/
def methodNotAllowedBody : Bytes := [52, 48, 53]

/-- Body of the framework's default 500 page (fixed, non-empty). -/
def serverErrorBody : Bytes := [53, 48, 48]

/-- The framework's default 404 Not Found response. -/
def notFoundResponse : Response :=
  { status := 404, contentType := "text/html", body := notFoundBody }

/-- The framework's default 405 Method Not Allowed response. -/
def methodNotAllowedResponse : Response :=
  { status := 405, contentType := "text/html", body := methodNotAllowedBody }

/-- `render_template(name)`: reads the template from the application's
`templates` folder and returns it as a 200 `text/html` response; a
missing template surfaces as the framework's 500 error. -/
def render_template (env : Env) (base name : String) : Response :=
  match env.read (joinPath (templates_dir base) name) with
  | some b => { status := 200, contentType := "text/html", body := b }
  | none => { status := 500, contentType := "text/html", body := serverErrorBody }

/-- `send_from_directory(dir, name)`: returns the raw bytes of the file
with a script content type, or the framework's 404 when absent. -/
def send_from_directory (env : Env) (dir name : String) : Response :=
  match env.read (joinPath dir name) with
  | some b => { status := 200, contentType := "text/javascript", body := b }
  | none => notFoundResponse

/-- Handler for `GET /` (src/main.py lines 12-14):
`return render_template("landing_page.html")`. -/
def landing_page (env : Env) (base : String) : Response :=
  render_template env base "landing_page.html"

/-- Handler for `GET /auth.js` (src/main.py lines 16-18):
`return send_from_directory(os.path.join(root, "templates"), "auth.js")`,
where `root` is the source file's directory. -/
def serve_auth (env : Env) (base : String) : Response :=
  send_from_directory env (joinPath base "templates") "auth.js"

/-- Handler for `GET /home` (src/main.py lines 19-21):
`return render_template("home.html")`. -/
def home_page (env : Env) (base : String) : Response :=
  render_template env base "home.html"

/-- Whether a path is registered in the route table of `src/main.py`
(`/`, `/auth.js`, `/home`). -/
def registeredB (p : String) : Bool :=
  p = "/" || p = "/auth.js" || p = "/home"

/-- The GET handler the route table assigns to a registered path. -/
def handlerB (env : Env) (base : String) (p : String) : Response :=
  if p = "/" then landing_page env base
  else if p = "/auth.js" then serve_auth env base
  else home_page env base

/-- Full request dispatch for the server in `src/main.py`: a registered
path runs its handler for GET (HEAD gets the same status with an empty
body, OPTIONS is answered by the framework with 200); any other method
on a registered path is 405; an unregistered path is 404. -/
def dispatchB (env : Env) (base : String) (req : Request) : Response :=
  if registeredB req.path then
    match req.method with
    | Method.GET => handlerB env base req.path
    | Method.HEAD =>
        let r := handlerB env base req.path
        { status := r.status, contentType := r.contentType, body := [] }
    | Method.OPTIONS => { status := 200, contentType := "text/html", body := [] }
    | _ => methodNotAllowedResponse
  else notFoundResponse

/-- The listener configuration produced by a successful `app.run`. -/
structure ListenConfig where
  host : String
  port : Nat
  https : Bool
  deriving DecidableEq, Repr

/-- `app.run(debug=True, host="0.0.0.0", port=5000,
ssl_context=(cert_path, key_path))` (src/main.py lines 22-26): the
listener starts only when both PEM files exist and are well-formed, and
then serves HTTPS on all interfaces, port 5000; otherwise startup raises
and the process exits with a nonzero status, never binding a socket. -/
def app_run_B (env : Env) (base : String) : Except String ListenConfig :=
  match env.read (cert_path base), env.read (key_path base) with
  | some c, some k =>
      if env.validPem c && env.validPem k then
        Except.ok { host := "0.0.0.0", port := 5000, https := true }
      else Except.error "ssl.SSLError: PEM lib"
  | _, _ => Except.error "FileNotFoundError"

/-- Sequential request handling: the server processes a list of requests
in order; no handler writes any state, so each response is computed from
the fixed environment alone. -/
def runServer (env : Env) (base : String) : List Request → List Response
  | [] => []
  | r :: rs => dispatchB env base r :: runServer env base rs

/-- Modelled from the spec: variant A, the dev server described as a
second standalone process whose source file is not under `src/`.  From
the spec it serves a landing page at `/` and `/auth.js` read from the
process's working directory `cwd`; `/home` is not registered. -/
def dispatchA (env : Env) (cwd : String) (req : Request) : Response :=
  if req.path = "/" || req.path = "/auth.js" then
    match req.method with
    | Method.GET =>
        if req.path = "/" then landing_page env cwd
        else send_from_directory env cwd "auth.js"
    | Method.HEAD =>
        let r :=
          if req.path = "/" then landing_page env cwd
          else send_from_directory env cwd "auth.js"
        { status := r.status, contentType := r.contentType, body := [] }
    | Method.OPTIONS => { status := 200, contentType := "text/html", body := [] }
    | _ => methodNotAllowedResponse
  else notFoundResponse

/-- Modelled from the spec: variant A's bootstrap `app.run(debug=True)`
binds the framework default host `127.0.0.1`, port 5000, plaintext HTTP
(no TLS material is involved, so startup cannot fail on certificates). -/
def app_run_A : ListenConfig :=
  { host := "127.0.0.1", port := 5000, https := false }

/-- A concrete environment for witnesses: all files the server reads are
present under the directory `/srv`. -/
def sampleEnv : Env where
  read := fun p =>
    if p = "/srv/templates/landing_page.html" then some [60, 104, 49, 62]
    else if p = "/srv/templates/home.html" then some [60, 104, 50, 62]
    else if p = "/srv/templates/auth.js" then some [118, 97, 114]
    else if p = "/srv/certificates/cert.pem" then some [45, 45]
    else if p = "/srv/certificates/key.pem" then some [45, 46]
    else none
  validPem := fun b => !b.isEmpty

/-- A concrete environment missing `certificates/key.pem`. -/
def noKeyEnv : Env where
  read := fun p =>
    if p = "/srv/certificates/cert.pem" then some [45, 45] else none
  validPem := fun b => !b.isEmpty

/-- Any successful `app.run` of the server in `src/main.py` yields the one
configuration written there: all interfaces, port 5000, HTTPS. -/
theorem app_run_B_ok_config (env : Env) (base : String) (cfg : ListenConfig)
    (h : app_run_B env base = Except.ok cfg) :
    cfg = { host := "0.0.0.0", port := 5000, https := true } := by
  unfold app_run_B at h
  rcases hc : env.read (cert_path base) with _ | c <;> rw [hc] at h <;>
    rcases hk : env.read (key_path base) with _ | k <;> rw [hk] at h <;>
      simp at h
  split at h <;> simp_all

/-- `runServer` is a pure map over the request list: no state is threaded
between requests. -/
theorem runServer_eq_map (env : Env) (base : String) (reqs : List Request) :
    runServer env base reqs = reqs.map (dispatchB env base) := by
  induction reqs with
  | nil => rfl
  | cons r rs ih => simp [runServer, ih]

/-- C1: every request `GET /` (any query string, any headers) returns
status 200 with Content-Type `text/html` and a non-empty body equal to the
rendered `landing_page.html` template, given that the template file is on
disk and non-empty. -/
theorem c1_get_root_ok (env : Env) (base q : String)
    (hs : List (String × String)) (b : Bytes)
    (hread : env.read (joinPath (templates_dir base) "landing_page.html") = some b)
    (hne : b ≠ []) :
    dispatchB env base { method := Method.GET, path := "/", query := q, headers := hs } =
      { status := 200, contentType := "text/html", body := b } ∧ b ≠ [] := by
  refine ⟨?_, hne⟩
  simp [dispatchB, registeredB, handlerB, landing_page, render_template, hread]

/-- C1 witness: the landing page request on a concrete environment. -/
theorem c1_get_root_ok_witness :
    dispatchB sampleEnv "/srv" { method := Method.GET, path := "/", query := "", headers := [] } =
      { status := 200, contentType := "text/html", body := [60, 104, 49, 62] } ∧
      ([60, 104, 49, 62] : Bytes) ≠ [] :=
  c1_get_root_ok sampleEnv "/srv" "" [] [60, 104, 49, 62] (by decide) (by decide)

/-- C2: every request `GET /auth.js` returns status 200 with a script
content type and a body byte-for-byte identical to the on-disk `auth.js`
file in the server's `templates` subdirectory, given that file exists. -/
theorem c2_get_authjs_ok (env : Env) (base q : String)
    (hs : List (String × String)) (b : Bytes)
    (hread : env.read (joinPath (joinPath base "templates") "auth.js") = some b) :
    dispatchB env base { method := Method.GET, path := "/auth.js", query := q, headers := hs } =
      { status := 200, contentType := "text/javascript", body := b } := by
  simp [dispatchB, registeredB, handlerB, serve_auth, send_from_directory, hread]

/-- C2 witness: the script request on a concrete environment. -/
theorem c2_get_authjs_ok_witness :
    dispatchB sampleEnv "/srv" { method := Method.GET, path := "/auth.js", query := "", headers := [] } =
      { status := 200, contentType := "text/javascript", body := [118, 97, 114] } :=
  c2_get_authjs_ok sampleEnv "/srv" "" [] [118, 97, 114] (by decide)

/-- C3: every request whose path is none of `/`, `/home`, `/auth.js`
(whatever its method, query or headers) gets status 404. -/
theorem c3_unknown_path_404 (env : Env) (base : String) (req : Request)
    (h1 : req.path ≠ "/") (h2 : req.path ≠ "/home") (h3 : req.path ≠ "/auth.js") :
    (dispatchB env base req).status = 404 := by
  simp [dispatchB, registeredB, h1, h2, h3, notFoundResponse]

/-- C3 witness: `GET /does-not-exist` on a concrete environment. -/
theorem c3_unknown_path_404_witness :
    (dispatchB sampleEnv "/srv"
      { method := Method.GET, path := "/does-not-exist", query := "", headers := [] }).status = 404 :=
  c3_unknown_path_404 sampleEnv "/srv" _ (by decide) (by decide) (by decide)

/-- C4: when the certificate or key file is absent, or either is malformed
PEM, `app.run` fails with an error (the process exits nonzero), the
listener never starts, and no successful start of this server is ever
plaintext. -/
theorem c4_tls_failure_fatal (env : Env) (base : String)
    (hbad : env.read (cert_path base) = none ∨ env.read (key_path base) = none ∨
      (∃ c, env.read (cert_path base) = some c ∧ env.validPem c = false) ∨
      (∃ k, env.read (key_path base) = some k ∧ env.validPem k = false)) :
    (∃ msg, app_run_B env base = Except.error msg) ∧
    (∀ cfg, app_run_B env base ≠ Except.ok cfg) ∧
    (∀ env2 base2 cfg, app_run_B env2 base2 = Except.ok cfg → cfg.https = true) := by
  have herr : ∃ msg, app_run_B env base = Except.error msg := by
    rcases hc : env.read (cert_path base) with _ | c
    · exact ⟨"FileNotFoundError", by simp [app_run_B, hc]⟩
    · rcases hk : env.read (key_path base) with _ | k
      · exact ⟨"FileNotFoundError", by simp [app_run_B, hc, hk]⟩
      · rcases hbad with h | h | ⟨c2, hc2, hv⟩ | ⟨k2, hk2, hv⟩
        · exact absurd h (by simp [hc])
        · exact absurd h (by simp [hk])
        · rw [hc] at hc2
          obtain rfl : c2 = c := by injection hc2 with e; exact e.symm
          exact ⟨"ssl.SSLError: PEM lib", by simp [app_run_B, hc, hk, hv]⟩
        · rw [hk] at hk2
          obtain rfl : k2 = k := by injection hk2 with e; exact e.symm
          exact ⟨"ssl.SSLError: PEM lib", by simp [app_run_B, hc, hk, hv]⟩
  refine ⟨herr, ?_, ?_⟩
  · intro cfg hok
    obtain ⟨msg, hmsg⟩ := herr
    rw [hmsg] at hok
    exact Except.noConfusion hok
  · intro env2 base2 cfg hok
    have := app_run_B_ok_config env2 base2 cfg hok
    rw [this]

/-- C4 witness: a concrete environment missing `certificates/key.pem`. -/
theorem c4_tls_failure_fatal_witness :
    (∃ msg, app_run_B noKeyEnv "/srv" = Except.error msg) ∧
    (∀ cfg, app_run_B noKeyEnv "/srv" ≠ Except.ok cfg) ∧
    (∀ env2 base2 cfg, app_run_B env2 base2 = Except.ok cfg → cfg.https = true) :=
  c4_tls_failure_fatal noKeyEnv "/srv" (Or.inr (Or.inl (by decide)))

/-- C5: whenever the main program's `app.run` succeeds, the listener binds
`0.0.0.0:5000` over HTTPS, and the certificate and key were read from
`certificates/cert.pem` and `certificates/key.pem` resolved relative to
the source file's directory `base`. -/
theorem c5_listener_config (env : Env) (base : String) (cfg : ListenConfig)
    (h : app_run_B env base = Except.ok cfg) :
    cfg.host = "0.0.0.0" ∧ cfg.port = 5000 ∧ cfg.https = true ∧
    cert_path base = base ++ "/certificates/cert.pem" ∧
    key_path base = base ++ "/certificates/key.pem" ∧
    env.read (cert_path base) ≠ none ∧ env.read (key_path base) ≠ none := by
  have hcfg := app_run_B_ok_config env base cfg h
  subst hcfg
  refine ⟨rfl, rfl, rfl, ?_, ?_, ?_, ?_⟩
  · simp [cert_path, joinPath, String.append_assoc]
  · simp [key_path, joinPath, String.append_assoc]
  · intro hnone
    unfold app_run_B at h
    rw [hnone] at h
    exact Except.noConfusion h
  · intro hnone
    unfold app_run_B at h
    rw [hnone] at h
    rcases env.read (cert_path base) with _ | c <;> simp at h

/-- C5 witness: a concrete environment where startup succeeds. -/
theorem c5_listener_config_witness :
    ({ host := "0.0.0.0", port := 5000, https := true } : ListenConfig).host = "0.0.0.0" ∧
    ({ host := "0.0.0.0", port := 5000, https := true } : ListenConfig).port = 5000 ∧
    ({ host := "0.0.0.0", port := 5000, https := true } : ListenConfig).https = true ∧
    cert_path "/srv" = "/srv" ++ "/certificates/cert.pem" ∧
    key_path "/srv" = "/srv" ++ "/certificates/key.pem" ∧
    sampleEnv.read (cert_path "/srv") ≠ none ∧ sampleEnv.read (key_path "/srv") ≠ none :=
  c5_listener_config sampleEnv "/srv" { host := "0.0.0.0", port := 5000, https := true } (by rfl)

/-- C6: every request `GET /home` returns status 200 with Content-Type
`text/html` and a non-empty body equal to the rendered `home.html`
template, given that the template file is on disk and non-empty. -/
theorem c6_get_home_ok (env : Env) (base q : String)
    (hs : List (String × String)) (b : Bytes)
    (hread : env.read (joinPath (templates_dir base) "home.html") = some b)
    (hne : b ≠ []) :
    dispatchB env base { method := Method.GET, path := "/home", query := q, headers := hs } =
      { status := 200, contentType := "text/html", body := b } ∧ b ≠ [] := by
  refine ⟨?_, hne⟩
  simp [dispatchB, registeredB, handlerB, home_page, render_template, hread]

/-- C6 witness: the home page request on a concrete environment. -/
theorem c6_get_home_ok_witness :
    dispatchB sampleEnv "/srv" { method := Method.GET, path := "/home", query := "", headers := [] } =
      { status := 200, contentType := "text/html", body := [60, 104, 50, 62] } ∧
      ([60, 104, 50, 62] : Bytes) ≠ [] :=
  c6_get_home_ok sampleEnv "/srv" "" [] [60, 104, 50, 62] (by decide) (by decide)

/-- C7: in variant A (modelled from the spec, since its source file is not
under `src/`), `GET /home` returns 404 because the route is not
registered, and the listener binds the framework default host `127.0.0.1`,
port 5000, plaintext HTTP only. -/
theorem c7_variant_A (env : Env) (cwd q : String) (hs : List (String × String)) :
    (dispatchA env cwd { method := Method.GET, path := "/home", query := q, headers := hs }).status = 404 ∧
    app_run_A.host = "127.0.0.1" ∧ app_run_A.port = 5000 ∧ app_run_A.https = false := by
  refine ⟨?_, rfl, rfl, rfl⟩
  simp [dispatchA, notFoundResponse]

/-- C8: request handling is stateless and deterministic: the server's
response list is a pure map of the dispatch function over the requests,
and the response to a request is the same whatever requests preceded it,
so issuing the same request twice yields identical responses. -/
theorem c8_stateless_deterministic (env : Env) (base : String)
    (reqs rs1 rs2 : List Request) (r : Request) :
    runServer env base reqs = reqs.map (dispatchB env base) ∧
    (runServer env base (rs1 ++ [r])).getLast? = some (dispatchB env base r) ∧
    (runServer env base (rs1 ++ [r])).getLast? = (runServer env base (rs2 ++ [r])).getLast? := by
  have hmap := runServer_eq_map env base
  refine ⟨hmap reqs, ?_, ?_⟩
  · rw [hmap, List.map_append]
    exact List.getLast?_concat _
  · simp only [hmap, List.map_append, List.map_cons, List.map_nil, List.getLast?_concat]

/-- C9: the file served at `/auth.js` is fixed by configuration: any GET
request with that path (whatever its query or headers) runs `serve_auth`,
which reads exactly `templates/auth.js`; two environments agreeing on that
one file produce identical responses for any two such requests. -/
theorem c9_authjs_fixed_file (env1 env2 : Env) (base : String) (r1 r2 : Request)
    (hp1 : r1.path = "/auth.js") (hm1 : r1.method = Method.GET)
    (hp2 : r2.path = "/auth.js") (hm2 : r2.method = Method.GET)
    (hfs : env1.read (joinPath (joinPath base "templates") "auth.js") =
           env2.read (joinPath (joinPath base "templates") "auth.js")) :
    dispatchB env1 base r1 = serve_auth env1 base ∧
    dispatchB env1 base r1 = dispatchB env2 base r2 := by
  obtain ⟨m1, p1, q1, h1⟩ := r1
  obtain ⟨m2, p2, q2, h2⟩ := r2
  simp only at hp1 hm1 hp2 hm2
  subst hp1 hm1 hp2 hm2
  constructor
  · simp [dispatchB, registeredB, handlerB]
  · simp [dispatchB, registeredB, handlerB, serve_auth, send_from_directory, hfs]

/-- C9 witness: two concrete `GET /auth.js` requests with different query
strings and headers on concrete environments. -/
theorem c9_authjs_fixed_file_witness :
    dispatchB sampleEnv "/srv" { method := Method.GET, path := "/auth.js", query := "v=1", headers := [("X", "y")] } =
      serve_auth sampleEnv "/srv" ∧
    dispatchB sampleEnv "/srv" { method := Method.GET, path := "/auth.js", query := "v=1", headers := [("X", "y")] } =
      dispatchB sampleEnv "/srv" { method := Method.GET, path := "/auth.js", query := "", headers := [] } :=
  c9_authjs_fixed_file sampleEnv sampleEnv "/srv" _ _ rfl rfl rfl rfl rfl

/-- C10: on every registered path (`/`, `/home`, `/auth.js`), a request
with a non-GET method such as POST gets 405 Method Not Allowed, not 404:
each route is registered for GET (plus automatic HEAD and OPTIONS) only. -/
theorem c10_wrong_method_405 (env : Env) (base : String) (req : Request)
    (hp : registeredB req.path = true)
    (hm : req.method = Method.POST ∨ req.method = Method.PUT ∨
          req.method = Method.DELETE ∨ req.method = Method.PATCH) :
    (dispatchB env base req).status = 405 ∧ (dispatchB env base req).status ≠ 404 := by
  have h405 : (dispatchB env base req).status = 405 := by
    rcases hm with h | h | h | h <;>
      simp [dispatchB, hp, h, methodNotAllowedResponse]
  exact ⟨h405, by rw [h405]; decide⟩

/-- C10 witness: `POST /` on a concrete environment. -/
theorem c10_wrong_method_405_witness :
    (dispatchB sampleEnv "/srv" { method := Method.POST, path := "/", query := "", headers := [] }).status = 405 ∧
    (dispatchB sampleEnv "/srv" { method := Method.POST, path := "/", query := "", headers := [] }).status ≠ 404 :=
  c10_wrong_method_405 sampleEnv "/srv" _ (by decide) (Or.inl rfl)

end Verbose
